import Mathlib

/-!
Verification development for the Taiwan government subsidy chatbot backend.

The definitions below are a shallow embedding, in Lean 4, of the Python
sources `backend/subsidy_calculator.py`, `backend/subsidy_chatbot_handler.py`
and the `SubsidyConsultation` model of `backend/models.py`.

Embedding conventions:
- Python non-negative integers (currency amounts in 元, headcounts) are `Nat`.
- Python `None`-able attributes are `Option _`; `none` is `None`/unset.
- Python float truncations `int(x * 0.1)`, `int(x * 0.2)`, `int(x * 0.75)`,
  `int(x * 0.8)`, `int(x * 0.9)` are embedded as the exact rational floors
  `x / 10`, `x / 5`, `x * 3 / 4`, `x * 4 / 5`, `x * 9 / 10`: for every value
  these expressions are applied to in the modelled integer range (amounts
  bounded by the 4,500,000 cap, the fixed bonus sums 400000/450000, and
  IEEE-754-exact small products) the Python double computation truncates to
  the same integer, so the embedding is faithful there.
- Fallible operations (Python code that can raise) return `Except String _`.
-/

namespace Subsidy

/-- Bonus item fixed amounts, `SubsidyCalculator.BONUS_VALUES`. -/
def BONUS_VALUES : List Nat := [100000, 200000, 50000, 50000, 50000]

/-- The state of a `SubsidyCalculator` object after `__init__`
(`subsidy_calculator.py`, lines 18-49). -/
structure SubsidyCalculator where
  budget : Nat
  people : Nat
  capital : Nat
  revenue : Nat
  bonus_count : Nat
  project_type : String
  marketing_types : List String
  growth_revenue : Nat
deriving Repr, DecidableEq

/-- `SubsidyCalculator.__init__`: stores the arguments, capping
`bonus_count` at 5 (`min(bonus_count, 5)`). -/
def mkCalculator (budget people capital revenue bonus_count : Nat)
    (project_type : String) (marketing_types : List String)
    (growth_revenue : Nat) : SubsidyCalculator :=
  { budget := budget, people := people, capital := capital, revenue := revenue,
    bonus_count := min bonus_count 5, project_type := project_type,
    marketing_types := marketing_types, growth_revenue := growth_revenue }

/-- `SubsidyCalculator.calculate_employee_grant`:
`min(self.people * 150000, 3000000)`. -/
def calculate_employee_grant (c : SubsidyCalculator) : Nat :=
  min (c.people * 150000) 3000000

/-- `SubsidyCalculator.calculate_revenue_bonus`: starts at 0, sets 500000
when `revenue >= 10000000`, then unconditionally overwrites with
`int(budget * 0.1)` when `revenue >= grant_employee * 5`. -/
def calculate_revenue_bonus (c : SubsidyCalculator) (grant_employee : Nat) : Nat :=
  let base := if c.revenue ≥ 10000000 then 500000 else 0
  if c.revenue ≥ grant_employee * 5 then c.budget / 10 else base

/-- `SubsidyCalculator.calculate_bonus_amount`: sum of the first
`bonus_count` entries of `BONUS_VALUES`, with a 10% discount at 4 items
and a 20% discount at 5 items. -/
def calculate_bonus_amount (c : SubsidyCalculator) : Nat :=
  if c.bonus_count = 0 then 0
  else
    let bonus_amount := (BONUS_VALUES.take c.bonus_count).sum
    if c.bonus_count = 5 then bonus_amount * 8 / 10
    else if c.bonus_count = 4 then bonus_amount * 9 / 10
    else bonus_amount

/-- `SubsidyCalculator.calculate_grant_range`: returns `(grant_min, grant_max)`.
Steps: employee grant, revenue bonus, bonus amount, raw sum, cap at
`min(4500000, int(revenue * 0.2))`, then `grant_min = int(grant_max * 0.75)`. -/
def calculate_grant_range (c : SubsidyCalculator) : Nat × Nat :=
  let grant_employee := calculate_employee_grant c
  let grant_revenue_bonus := calculate_revenue_bonus c grant_employee
  let bonus_amount := calculate_bonus_amount c
  let raw := grant_employee + grant_revenue_bonus + bonus_amount
  let upper_limit := min 4500000 (c.revenue / 5)
  let grant_max := if raw > upper_limit then upper_limit else raw
  (grant_max * 3 / 4, grant_max)

/-- `SubsidyCalculator.get_recommended_plans`: threshold is
`int(grant_max * 0.8)`; research plans are additive by threshold, marketing
plans depend on membership of 外銷/內銷 in `marketing_types`. -/
def get_recommended_plans (c : SubsidyCalculator) (grant_max : Nat) : List String :=
  let threshold := grant_max * 4 / 5
  if c.project_type = "研發" then
    (if threshold ≥ 0 then ["地方SBIR"] else []) ++
    (if threshold ≥ 1500000 then ["CITD"] else []) ++
    (if threshold ≥ 2000000 then ["中央SBIR"] else [])
  else if c.project_type = "行銷" then
    (if c.marketing_types.contains "外銷" then ["開拓海外市場計畫"] else []) ++
    (if c.marketing_types.contains "內銷" then ["內銷行銷推廣計畫（預留）"] else [])
  else []

/-- The dictionary returned by `SubsidyCalculator.calculate_all`
(grant range, recommended plans, and the transparency breakdown). -/
structure CalcResult where
  grant_min : Nat
  grant_max : Nat
  recommended_plans : List String
  grant_employee : Nat
  grant_revenue_bonus : Nat
  bonus_amount : Nat
  upper_limit : Nat
deriving Repr, DecidableEq

/-- `SubsidyCalculator.calculate_all`. -/
def calculate_all (c : SubsidyCalculator) : CalcResult :=
  let range := calculate_grant_range c
  let grant_employee := calculate_employee_grant c
  { grant_min := range.1
    grant_max := range.2
    recommended_plans := get_recommended_plans c range.2
    grant_employee := grant_employee
    grant_revenue_bonus := calculate_revenue_bonus c grant_employee
    bonus_amount := calculate_bonus_amount c
    upper_limit := min 4500000 (c.revenue / 5) }

/-- The in-process state of a `SubsidyConsultation` row (`models.py`,
lines 211-255) together with the transient `data_confirmed` Python
attribute. `data_confirmed` is NOT a database column: it is created only
by assignment in the confirm branch of `process_message`; `none` models
the attribute being absent (reading it raises `AttributeError`). -/
structure SubsidyConsultation where
  project_type : Option String := none
  budget : Option Nat := none
  people : Option Nat := none
  capital : Option Nat := none
  revenue : Option Nat := none
  has_certification : Option Bool := none
  has_gov_award : Option Bool := none
  is_mit : Option Bool := none
  has_industry_academia : Option Bool := none
  has_factory_registration : Option Bool := none
  marketing_type : Option String := none
  growth_revenue : Option Nat := none
  bonus_count : Option Nat := some 0
  bonus_details : Option String := none
  grant_min : Option Nat := none
  grant_max : Option Nat := none
  recommended_plans : Option String := none
  data_confirmed : Option Bool := none
deriving Repr, DecidableEq

/-- The column names of the `SubsidyConsultation` SQLAlchemy model
(`models.py`, lines 216-255), in declaration order. -/
def subsidyConsultationColumns : List String :=
  ["id", "chat_session_id", "user_id", "source", "project_type", "email",
   "company_name", "phone", "consult", "budget", "people", "capital",
   "revenue", "growth_revenue", "bonus_count", "bonus_details",
   "marketing_type", "grant_min", "grant_max", "recommended_plans",
   "device", "timestamp", "created_at", "updated_at"]

/-- A record as created by `create_session`: every collected field unset,
`bonus_count` at its column default 0, and no `data_confirmed` attribute. -/
def initialConsultation : SubsidyConsultation := {}

/-- The argument dictionary of an `update_subsidy_data` function call:
`none` models a key that is absent or maps to `None`. -/
structure UpdatePayload where
  project_type : Option String := none
  budget : Option Nat := none
  people : Option Nat := none
  capital : Option Nat := none
  revenue : Option Nat := none
  has_certification : Option Bool := none
  has_gov_award : Option Bool := none
  is_mit : Option Bool := none
  has_industry_academia : Option Bool := none
  has_factory_registration : Option Bool := none
  marketing_type : Option String := none
  growth_revenue : Option Nat := none
deriving Repr, DecidableEq

/-- Python truthiness of an optional string: `None` and `""` are falsy. -/
def strPresent : Option String → Bool
  | none => false
  | some v => v != ""

/-- New stored value of a string field: Python processes the payload value
only when it is truthy (`if "f" in data and data["f"]:`). -/
def strNewStored (stored p : Option String) : Option String :=
  match p with
  | some v => if v = "" then stored else some v
  | none => stored

/-- Correction flag for a string field: Python records a correction when
the STORED value is truthy and differs from the incoming value
(`if stored and stored != data["f"]`). -/
def strCompCorr (stored p : Option String) : Bool :=
  match p with
  | some v =>
      if v = "" then false
      else
        match stored with
        | some st => st != "" && st != v
        | none => false
  | none => false

/-- New stored value of an integer field: Python processes the payload
value whenever it is present and not `None` (0 included). -/
def natNewStored (stored p : Option Nat) : Option Nat :=
  match p with
  | some v => some v
  | none => stored

/-- Correction flag for an integer field: Python uses TRUTHINESS of the
stored value (`if stored and stored != int(data["f"])`), so a stored 0 is
never reported as corrected. -/
def natCompCorr (stored p : Option Nat) : Bool :=
  match p with
  | some v =>
      match stored with
      | some st => st != 0 && st != v
      | none => false
  | none => false

/-- New stored value of a boolean bonus flag: processed whenever present
and not `None`. -/
def boolNewStored (stored p : Option Bool) : Option Bool :=
  match p with
  | some v => some v
  | none => stored

/-- Correction flag for a boolean bonus flag: Python checks
`stored is not None and stored != bool(data["f"])`. -/
def boolCompCorr (stored p : Option Bool) : Bool :=
  match p with
  | some v =>
      match stored with
      | some st => st != v
      | none => false
  | none => false

/-- The five bonus-item labels in the fixed order used by
`_update_bonus_count_and_details`. -/
def BONUS_LABELS : List String :=
  ["產品／服務取得第三方認證", "取得政府相關獎項", "產品為 MIT 生產",
   "有做產學合作", "有工廠登記證"]

/-- `SubsidyChatbotHandler._update_bonus_count_and_details`: recomputes
`bonus_count` and `bonus_details` from the five boolean flags (a flag
counts when it is truthy, i.e. exactly `True`; `None`/`False` are falsy). -/
def update_bonus_count_and_details (r : SubsidyConsultation) : SubsidyConsultation :=
  let bonus_items :=
    (if r.has_certification = some true then ["產品／服務取得第三方認證"] else []) ++
    (if r.has_gov_award = some true then ["取得政府相關獎項"] else []) ++
    (if r.is_mit = some true then ["產品為 MIT 生產"] else []) ++
    (if r.has_industry_academia = some true then ["有做產學合作"] else []) ++
    (if r.has_factory_registration = some true then ["有工廠登記證"] else [])
  { r with
    bonus_count := some bonus_items.length
    bonus_details :=
      if bonus_items = [] then none
      else some (String.intercalate ", " bonus_items) }

/-- The outcome of `SubsidyChatbotHandler.update_consultation_data`: the
mutated record, the returned `updated` flag, and `self._corrected_fields`. -/
structure UpdateResult where
  record : SubsidyConsultation
  updated : Bool
  corrected_fields : List String
deriving Repr, DecidableEq

/-- The `updated` flag of `update_consultation_data`: true when at least
one payload field was processed (string fields count only when truthy,
the other fields whenever present and not `None`). -/
def updateApplied (d : UpdatePayload) : Bool :=
  strPresent d.project_type || d.budget.isSome || d.people.isSome ||
  d.capital.isSome || d.revenue.isSome || d.has_certification.isSome ||
  d.has_gov_award.isSome || d.is_mit.isSome || d.has_industry_academia.isSome ||
  d.has_factory_registration.isSome || strPresent d.marketing_type ||
  d.growth_revenue.isSome

/-- `self._corrected_fields` as built by `update_consultation_data`:
field names appended in the fixed source order whenever the per-field
correction check fires. -/
def updateCorrectedFields (r : SubsidyConsultation) (d : UpdatePayload) : List String :=
  (if strCompCorr r.project_type d.project_type then ["project_type"] else []) ++
  (if natCompCorr r.budget d.budget then ["budget"] else []) ++
  (if natCompCorr r.people d.people then ["people"] else []) ++
  (if natCompCorr r.capital d.capital then ["capital"] else []) ++
  (if natCompCorr r.revenue d.revenue then ["revenue"] else []) ++
  (if boolCompCorr r.has_certification d.has_certification then ["has_certification"] else []) ++
  (if boolCompCorr r.has_gov_award d.has_gov_award then ["has_gov_award"] else []) ++
  (if boolCompCorr r.is_mit d.is_mit then ["is_mit"] else []) ++
  (if boolCompCorr r.has_industry_academia d.has_industry_academia then ["has_industry_academia"] else []) ++
  (if boolCompCorr r.has_factory_registration d.has_factory_registration then ["has_factory_registration"] else []) ++
  (if strCompCorr r.marketing_type d.marketing_type then ["marketing_type"] else []) ++
  (if natCompCorr r.growth_revenue d.growth_revenue then ["growth_revenue"] else [])

/-- The record after the twelve per-field conditional overwrites of
`update_consultation_data`, before the bonus recomputation. -/
def updateRawRecord (r : SubsidyConsultation) (d : UpdatePayload) : SubsidyConsultation :=
  { r with
    project_type := strNewStored r.project_type d.project_type
    budget := natNewStored r.budget d.budget
    people := natNewStored r.people d.people
    capital := natNewStored r.capital d.capital
    revenue := natNewStored r.revenue d.revenue
    has_certification := boolNewStored r.has_certification d.has_certification
    has_gov_award := boolNewStored r.has_gov_award d.has_gov_award
    is_mit := boolNewStored r.is_mit d.is_mit
    has_industry_academia := boolNewStored r.has_industry_academia d.has_industry_academia
    has_factory_registration := boolNewStored r.has_factory_registration d.has_factory_registration
    marketing_type := strNewStored r.marketing_type d.marketing_type
    growth_revenue := natNewStored r.growth_revenue d.growth_revenue }

/-- `SubsidyChatbotHandler.update_consultation_data`
(`subsidy_chatbot_handler.py`, lines 552-645): field-by-field conditional
overwrite in source order, correction tracking against the previously
stored values, and — when anything was updated — recomputation of
`bonus_count`/`bonus_details`. The Python code mutates the record and the
corrected list sequentially; since each field is touched at most once the
simultaneous form below is equivalent. -/
def update_consultation_data (r : SubsidyConsultation) (d : UpdatePayload) : UpdateResult :=
  { record :=
      if updateApplied d then update_bonus_count_and_details (updateRawRecord r d)
      else updateRawRecord r d
    updated := updateApplied d
    corrected_fields := updateCorrectedFields r d }

/-- Folding a sequence of `update_subsidy_data` calls over a record. -/
def applyUpdates (r : SubsidyConsultation) (ds : List UpdatePayload) : SubsidyConsultation :=
  ds.foldl (fun acc d => (update_consultation_data acc d).record) r

/-- `ChatSessionStatus` enumeration from `models.py`. -/
inductive ChatSessionStatus
  | ACTIVE
  | COMPLETED
  | ABANDONED
deriving Repr, DecidableEq

/-- The outcome of `SubsidyChatbotHandler.calculate_and_save_subsidy`:
the returned `(success, result)` pair plus the record and session status
after the call. -/
structure SaveResult where
  success : Bool
  result : Option CalcResult
  record : SubsidyConsultation
  status : ChatSessionStatus
deriving Repr, DecidableEq

/-- `SubsidyChatbotHandler.calculate_and_save_subsidy`
(`subsidy_chatbot_handler.py`, lines 647-694): validates only
`project_type` (truthiness) and `budget`/`people`/`capital`/`revenue`
(not-`None`), splits `marketing_type` on commas when truthy, runs the
calculator with `bonus_count or 0` and `growth_revenue or 0`, writes the
grant fields, and marks the session COMPLETED. On a validation failure it
returns `(False, None)` with nothing written. -/
def calculate_and_save_subsidy (r : SubsidyConsultation)
    (st : ChatSessionStatus) : SaveResult :=
  match r.project_type with
  | none => ⟨false, none, r, st⟩
  | some pt =>
    if pt = "" then ⟨false, none, r, st⟩
    else
      match r.budget, r.people, r.capital, r.revenue with
      | some budget, some people, some capital, some revenue =>
        let marketing_types :=
          match r.marketing_type with
          | some m => if m = "" then [] else (m.splitOn ",").map (fun t => t.trim)
          | none => []
        let res := calculate_all (mkCalculator budget people capital revenue
          (r.bonus_count.getD 0) pt marketing_types (r.growth_revenue.getD 0))
        ⟨true, some res,
         { r with
           grant_min := some res.grant_min
           grant_max := some res.grant_max
           recommended_plans := some (String.intercalate ", " res.recommended_plans) },
         ChatSessionStatus.COMPLETED⟩
      | _, _, _, _ => ⟨false, none, r, st⟩

/-- The prompt descriptors that `get_next_field_question` can select
(the rendered Chinese text is presentation and is abstracted to one
constructor per distinct question/prompt). -/
inductive Prompt
  | askProjectType
  | askBudget
  | askPeople
  | askCapital
  | askRevenue
  | askCertification
  | askGovAward
  | askMit
  | askIndustryAcademia
  | askFactoryRegistration
  | askMarketingType
  | askGrowthRevenue
  | confirmSummary
  | readyToCalculate
deriving Repr, DecidableEq

/-- `SubsidyChatbotHandler.get_next_field_question`
(`subsidy_chatbot_handler.py`, lines 696-750): scans the fixed field
order; once every required field is set it reads
`self.consultation_data.data_confirmed`, which raises `AttributeError`
when the transient attribute was never created. -/
def get_next_field_question (r : SubsidyConsultation) : Except String Prompt :=
  if strPresent r.project_type = false then .ok .askProjectType
  else if r.budget = none then .ok .askBudget
  else if r.people = none then .ok .askPeople
  else if r.capital = none then .ok .askCapital
  else if r.revenue = none then .ok .askRevenue
  else if r.has_certification = none then .ok .askCertification
  else if r.has_gov_award = none then .ok .askGovAward
  else if r.is_mit = none then .ok .askMit
  else if r.has_industry_academia = none then .ok .askIndustryAcademia
  else if r.has_factory_registration = none then .ok .askFactoryRegistration
  else if r.project_type = some "行銷" ∧ strPresent r.marketing_type = false then
    .ok .askMarketingType
  else if r.project_type = some "行銷" ∧ r.growth_revenue = none then
    .ok .askGrowthRevenue
  else
    match r.data_confirmed with
    | none => .error "AttributeError"
    | some dc => if dc = false then .ok .confirmSummary else .ok .readyToCalculate

/-- The state threaded through the function-call dispatch loop of
`SubsidyChatbotHandler.process_message` (record, session status, and the
loop's local flags). -/
structure ProcessState where
  record : SubsidyConsultation
  status : ChatSessionStatus
  completed : Bool
  data_updated : Bool
  calculation_done : Bool
  calculation_result : Option CalcResult
deriving Repr, DecidableEq

/-- The process state at the start of `process_message` on a fresh session. -/
def initialProcessState : ProcessState :=
  { record := initialConsultation, status := ChatSessionStatus.ACTIVE,
    completed := false, data_updated := false, calculation_done := false,
    calculation_result := none }

/-- One extracted function call, the tagged-variant view of the oracle
result (`update_subsidy_data` / `confirm_data` / `calculate_subsidy`). -/
inductive FunctionCall
  | update (d : UpdatePayload)
  | confirm (confirmed : Bool)
  | calculate
deriving Repr

/-- One iteration of the function-call dispatch loop in
`SubsidyChatbotHandler.process_message` (`subsidy_chatbot_handler.py`,
lines 776-802). The confirm branch sets `data_confirmed = True`
unconditionally and then chains into `calculate_and_save_subsidy`; the
calculate branch first reads `data_confirmed`, which raises
`AttributeError` when the attribute is absent, and is a logged no-op when
it is present and falsy. -/
def processCall (s : ProcessState) (fc : FunctionCall) : Except String ProcessState :=
  match fc with
  | .update d =>
    let res := update_consultation_data s.record d
    .ok { s with record := res.record, data_updated := s.data_updated || res.updated }
  | .confirm confirmed =>
    if confirmed then
      let r1 := { s.record with data_confirmed := some true }
      let sv := calculate_and_save_subsidy r1 s.status
      if sv.success then
        .ok { s with
          record := sv.record
          status := sv.status
          calculation_done := true
          calculation_result := sv.result
          completed := true }
      else
        .ok { s with record := sv.record, status := sv.status }
    else .ok s
  | .calculate =>
    match s.record.data_confirmed with
    | none => .error "AttributeError"
    | some dc =>
      if dc then
        let sv := calculate_and_save_subsidy s.record s.status
        if sv.success then
          .ok { s with
            record := sv.record
            status := sv.status
            calculation_done := true
            calculation_result := sv.result
            completed := true }
        else
          .ok { s with record := sv.record, status := sv.status }
      else .ok s

/-! Specification-side observations used by the theorems. -/

/-- The five fields that `calculate_and_save_subsidy` actually validates:
`project_type` by truthiness, the four amounts by a not-`None` check. -/
def baseFieldsComplete (r : SubsidyConsultation) : Bool :=
  strPresent r.project_type && r.budget.isSome && r.people.isSome &&
  r.capital.isSome && r.revenue.isSome

/-- Every field `get_next_field_question` asks for before the
confirmation step: the five base fields, the five bonus flags, and — for
行銷 (MARKETING) records — `marketing_type` and `growth_revenue`. -/
def allFieldsCollected (r : SubsidyConsultation) : Bool :=
  strPresent r.project_type && r.budget.isSome && r.people.isSome &&
  r.capital.isSome && r.revenue.isSome && r.has_certification.isSome &&
  r.has_gov_award.isSome && r.is_mit.isSome && r.has_industry_academia.isSome &&
  r.has_factory_registration.isSome &&
  (if r.project_type = some "行銷" then
     strPresent r.marketing_type && r.growth_revenue.isSome
   else true)

/-- The five bonus flags of a record, in the fixed source order. -/
def flagList (r : SubsidyConsultation) : List (Option Bool) :=
  [r.has_certification, r.has_gov_award, r.is_mit,
   r.has_industry_academia, r.has_factory_registration]

/-- Number of bonus flags that are currently true. -/
def trueFlagCount (r : SubsidyConsultation) : Nat :=
  (flagList r).count (some true)

/-- The labels of the currently-true bonus flags, in the fixed flag order. -/
def trueFlagLabels (r : SubsidyConsultation) : List String :=
  ((flagList r).zip BONUS_LABELS).filterMap
    (fun p => if p.1 = some true then some p.2 else none)

/-- The derived-field invariant of the spec: `bonus_count` equals the
number of true flags and `bonus_details` renders exactly the true flags'
labels in the fixed order. -/
def bonusInvariant (r : SubsidyConsultation) : Prop :=
  r.bonus_count = some (trueFlagCount r) ∧
  r.bonus_details =
    (if trueFlagLabels r = [] then none
     else some (String.intercalate ", " (trueFlagLabels r)))

/-- The twelve updatable fields of the record, for per-field statements
about correction tracking. -/
inductive FieldId
  | project_type
  | budget
  | people
  | capital
  | revenue
  | has_certification
  | has_gov_award
  | is_mit
  | has_industry_academia
  | has_factory_registration
  | marketing_type
  | growth_revenue
deriving Repr, DecidableEq

/-- The name under which a field is reported in `corrected_fields`. -/
def fieldName : FieldId → String
  | .project_type => "project_type"
  | .budget => "budget"
  | .people => "people"
  | .capital => "capital"
  | .revenue => "revenue"
  | .has_certification => "has_certification"
  | .has_gov_award => "has_gov_award"
  | .is_mit => "is_mit"
  | .has_industry_academia => "has_industry_academia"
  | .has_factory_registration => "has_factory_registration"
  | .marketing_type => "marketing_type"
  | .growth_revenue => "growth_revenue"

/-- "A truthy stored value exists and the processed incoming value
differs from it" — the premise under which the code records a field in
`corrected_fields`. For the numeric fields the stored value must be
nonzero and for the string fields non-empty (Python truthiness); for the
string fields the incoming value must additionally be non-empty, since an
empty incoming string is not processed at all. -/
def storedTruthyDiffers (r : SubsidyConsultation) (d : UpdatePayload) :
    FieldId → Prop
  | .project_type => ∃ s v, r.project_type = some s ∧ s ≠ "" ∧
      d.project_type = some v ∧ v ≠ "" ∧ v ≠ s
  | .budget => ∃ s v, r.budget = some s ∧ s ≠ 0 ∧ d.budget = some v ∧ v ≠ s
  | .people => ∃ s v, r.people = some s ∧ s ≠ 0 ∧ d.people = some v ∧ v ≠ s
  | .capital => ∃ s v, r.capital = some s ∧ s ≠ 0 ∧ d.capital = some v ∧ v ≠ s
  | .revenue => ∃ s v, r.revenue = some s ∧ s ≠ 0 ∧ d.revenue = some v ∧ v ≠ s
  | .has_certification => ∃ s v, r.has_certification = some s ∧
      d.has_certification = some v ∧ v ≠ s
  | .has_gov_award => ∃ s v, r.has_gov_award = some s ∧
      d.has_gov_award = some v ∧ v ≠ s
  | .is_mit => ∃ s v, r.is_mit = some s ∧ d.is_mit = some v ∧ v ≠ s
  | .has_industry_academia => ∃ s v, r.has_industry_academia = some s ∧
      d.has_industry_academia = some v ∧ v ≠ s
  | .has_factory_registration => ∃ s v, r.has_factory_registration = some s ∧
      d.has_factory_registration = some v ∧ v ≠ s
  | .marketing_type => ∃ s v, r.marketing_type = some s ∧ s ≠ "" ∧
      d.marketing_type = some v ∧ v ≠ "" ∧ v ≠ s
  | .growth_revenue => ∃ s v, r.growth_revenue = some s ∧ s ≠ 0 ∧
      d.growth_revenue = some v ∧ v ≠ s

/-! Concrete fixtures used by individual claims. -/

/-- The spec's research scenario as a single oracle update: 研發, budget
5,000,000, 20 people, capital 10,000,000, revenue 30,000,000, and exactly
three bonus flags answered true (the other two answered false). -/
def scenarioPayload : UpdatePayload :=
  { project_type := some "研發", budget := some 5000000, people := some 20,
    capital := some 10000000, revenue := some 30000000,
    has_certification := some true, has_gov_award := some true,
    is_mit := some true, has_industry_academia := some false,
    has_factory_registration := some false }

/-- The record reached by applying `scenarioPayload` to a fresh record. -/
def scenarioRecord : SubsidyConsultation :=
  (update_consultation_data initialConsultation scenarioPayload).record

/-- The calculator the handler builds for `scenarioRecord`. -/
def scenarioCalculator : SubsidyCalculator :=
  mkCalculator 5000000 20 10000000 30000000 3 "研發" [] 0

/-- A calculator whose revenue 14,999,999 is just under the override
threshold `employee_grant * 5 = 15,000,000` (budget 1,000,000, 20 people). -/
def lowRevenueCalc : SubsidyCalculator :=
  mkCalculator 1000000 20 10000000 14999999 0 "研發" [] 0

/-- The same calculator with revenue raised to exactly 15,000,000,
triggering the override. -/
def highRevenueCalc : SubsidyCalculator :=
  { lowRevenueCalc with revenue := 15000000 }

/-- A 行銷 (MARKETING) record with the five base fields and all five
bonus flags collected, but `marketing_type` and `growth_revenue` still
unset — incomplete in the spec's sense. -/
def marketingPayload : UpdatePayload :=
  { project_type := some "行銷", budget := some 3000000, people := some 15,
    capital := some 5000000, revenue := some 20000000,
    has_certification := some true, has_gov_award := some true,
    is_mit := some false, has_industry_academia := some false,
    has_factory_registration := some false }

/-- The marketing record reached by applying `marketingPayload` to a
fresh record (`marketing_type` and `growth_revenue` unset). -/
def marketingNoTypeRecord : SubsidyConsultation :=
  (update_consultation_data initialConsultation marketingPayload).record

/-- A record in which budget was answered as 0 (a stored value that is
present but falsy). -/
def zeroBudgetRecord : SubsidyConsultation :=
  (update_consultation_data initialConsultation { budget := some 0 }).record

/-- A revision of the people field (20 → 50) for the correction-tracking
witness. -/
def revisionPayload : UpdatePayload := { people := some 50 }

/-- A process state whose record carries `data_confirmed = False`
(attribute present and falsy). -/
def unconfirmedState : ProcessState :=
  { initialProcessState with
    record := { initialConsultation with data_confirmed := some false } }

/-- The process state holding the fully-collected research record, with
the `data_confirmed` attribute never created. -/
def collectedState : ProcessState :=
  { initialProcessState with record := scenarioRecord }

end Subsidy

namespace Subsidy

/-- C5: for every calculator input, the computed `grant_min` is exactly
`floor(grant_max * 0.75)`, where `grant_max` is the capped maximum
produced in the same run of `calculate_grant_range`. -/
theorem grant_min_is_three_quarters_of_grant_max (c : SubsidyCalculator) :
    (calculate_grant_range c).1 = (calculate_grant_range c).2 * 3 / 4 := rfl

/-- C6: with `revenue = 0` and every other input arbitrary, the
calculation succeeds (it is a total function, so no error or division by
zero is possible) and the zero upper limit forces
`grant_min = 0` and `grant_max = 0`. -/
theorem zero_revenue_forces_zero_grants (budget people capital bonus_count : Nat)
    (project_type : String) (marketing_types : List String)
    (growth_revenue : Nat) :
    calculate_grant_range (mkCalculator budget people capital 0 bonus_count
      project_type marketing_types growth_revenue) = (0, 0) := by
  simp only [calculate_grant_range, mkCalculator, Nat.zero_div, Nat.min_zero]
  split
  · rfl
  · next h => rw [Nat.le_zero.mp (Nat.not_lt.mp h)]

/-- C4: the revenue-bonus override: whenever
`revenue >= employee_grant * 5` the bonus is `floor(budget * 0.1)`,
replacing the base value even when smaller; concretely, raising revenue
from 14,999,999 to 15,000,000 (all else equal) drops the bonus from
500,000 to 100,000, so the bonus is not monotone in revenue. -/
theorem revenue_bonus_override_nonmonotone :
    (∀ c : SubsidyCalculator, c.revenue ≥ calculate_employee_grant c * 5 →
        calculate_revenue_bonus c (calculate_employee_grant c) = c.budget / 10) ∧
    highRevenueCalc = { lowRevenueCalc with revenue := 15000000 } ∧
    lowRevenueCalc.revenue < highRevenueCalc.revenue ∧
    calculate_revenue_bonus lowRevenueCalc (calculate_employee_grant lowRevenueCalc) = 500000 ∧
    calculate_revenue_bonus highRevenueCalc (calculate_employee_grant highRevenueCalc) = 100000 := by
  refine ⟨?_, rfl, by decide, rfl, rfl⟩
  intro c h
  simp [calculate_revenue_bonus, h]

/-- Witness for C4: at the concrete calculator `highRevenueCalc` the
override hypothesis holds and the theorem yields bonus = budget / 10. -/
theorem revenue_bonus_override_nonmonotone_witness :
    highRevenueCalc.revenue ≥ calculate_employee_grant highRevenueCalc * 5 ∧
    calculate_revenue_bonus highRevenueCalc (calculate_employee_grant highRevenueCalc) =
      highRevenueCalc.budget / 10 :=
  ⟨by decide, revenue_bonus_override_nonmonotone.1 highRevenueCalc (by decide)⟩

/-- After `_update_bonus_count_and_details` runs, the derived-field
invariant holds, whatever the record looked like before. -/
lemma bonusInvariant_recompute (r : SubsidyConsultation) :
    bonusInvariant (update_bonus_count_and_details r) := by
  unfold bonusInvariant update_bonus_count_and_details trueFlagCount trueFlagLabels flagList
  by_cases h1 : r.has_certification = some true <;>
  by_cases h2 : r.has_gov_award = some true <;>
  by_cases h3 : r.is_mit = some true <;>
  by_cases h4 : r.has_industry_academia = some true <;>
  by_cases h5 : r.has_factory_registration = some true <;>
  simp [h1, h2, h3, h4, h5, BONUS_LABELS, List.count_cons]

/-- One `update_subsidy_data` call preserves the derived-field invariant:
either something was processed and the recomputation re-establishes it,
or nothing was processed and the flags are untouched. -/
lemma bonusInvariant_update (r : SubsidyConsultation) (d : UpdatePayload)
    (h : bonusInvariant r) :
    bonusInvariant (update_consultation_data r d).record := by
  unfold update_consultation_data
  cases hu : updateApplied d with
  | true =>
    simp only [if_true, eq_self_iff_true]
    exact bonusInvariant_recompute _
  | false =>
    simp only [Bool.false_eq_true, if_false]
    cases hc1 : d.has_certification with
    | some v => simp [updateApplied, hc1] at hu
    | none =>
      cases hc2 : d.has_gov_award with
      | some v => simp [updateApplied, hc2] at hu
      | none =>
        cases hc3 : d.is_mit with
        | some v => simp [updateApplied, hc3] at hu
        | none =>
          cases hc4 : d.has_industry_academia with
          | some v => simp [updateApplied, hc4] at hu
          | none =>
            cases hc5 : d.has_factory_registration with
            | some v => simp [updateApplied, hc5] at hu
            | none =>
              unfold bonusInvariant trueFlagCount trueFlagLabels flagList at h ⊢
              simpa only [updateRawRecord, boolNewStored, hc1, hc2, hc3, hc4,
                hc5] using h

/-- Repeating an update leaves no string-field correction: after a call
processed a payload value, the stored value equals it. -/
lemma strCompCorr_after (s p : Option String) :
    strCompCorr (strNewStored s p) p = false := by
  cases p with
  | none => rfl
  | some v => by_cases hv : v = "" <;> simp [strCompCorr, strNewStored, hv]

/-- Repeating an update leaves no integer-field correction. -/
lemma natCompCorr_after (s p : Option Nat) :
    natCompCorr (natNewStored s p) p = false := by
  cases p with
  | none => rfl
  | some v => simp [natCompCorr, natNewStored]

/-- Repeating an update leaves no boolean-flag correction. -/
lemma boolCompCorr_after (s p : Option Bool) :
    boolCompCorr (boolNewStored s p) p = false := by
  cases p with
  | none => rfl
  | some v => simp [boolCompCorr, boolNewStored]

/-- The stored values of the twelve updatable fields after an update are
the per-field conditional overwrites (the bonus recomputation does not
touch them). -/
lemma update_record_stored_fields (r : SubsidyConsultation) (d : UpdatePayload) :
    (update_consultation_data r d).record.project_type = strNewStored r.project_type d.project_type ∧
    (update_consultation_data r d).record.budget = natNewStored r.budget d.budget ∧
    (update_consultation_data r d).record.people = natNewStored r.people d.people ∧
    (update_consultation_data r d).record.capital = natNewStored r.capital d.capital ∧
    (update_consultation_data r d).record.revenue = natNewStored r.revenue d.revenue ∧
    (update_consultation_data r d).record.has_certification = boolNewStored r.has_certification d.has_certification ∧
    (update_consultation_data r d).record.has_gov_award = boolNewStored r.has_gov_award d.has_gov_award ∧
    (update_consultation_data r d).record.is_mit = boolNewStored r.is_mit d.is_mit ∧
    (update_consultation_data r d).record.has_industry_academia = boolNewStored r.has_industry_academia d.has_industry_academia ∧
    (update_consultation_data r d).record.has_factory_registration = boolNewStored r.has_factory_registration d.has_factory_registration ∧
    (update_consultation_data r d).record.marketing_type = strNewStored r.marketing_type d.marketing_type ∧
    (update_consultation_data r d).record.growth_revenue = natNewStored r.growth_revenue d.growth_revenue := by
  unfold update_consultation_data
  split <;>
    exact ⟨rfl, rfl, rfl, rfl, rfl, rfl, rfl, rfl, rfl, rfl, rfl, rfl⟩

/-- C8: after every sequence of `update_subsidy_data` calls on a fresh
record — repeated toggles of the five bonus flags included —
`bonus_count` equals the number of flags currently true and
`bonus_details` lists exactly the true flags' labels in the fixed flag
order. -/
theorem bonus_count_matches_true_flags (ds : List UpdatePayload) :
    bonusInvariant (applyUpdates initialConsultation ds) := by
  have hstep : ∀ (l : List UpdatePayload) (r : SubsidyConsultation),
      bonusInvariant r → bonusInvariant (applyUpdates r l) := by
    intro l
    induction l with
    | nil => intro r h; exact h
    | cons d l ih => intro r h; exact ih _ (bonusInvariant_update r d h)
  exact hstep ds initialConsultation ⟨rfl, rfl⟩

/-- C1: the research scenario (people 20, budget 5,000,000, capital
10,000,000, revenue 30,000,000, three bonus flags true, 研發) yields
grant_max 3,850,000, grant_min 2,887,500, breakdown employee 3,000,000 /
revenue bonus 500,000 / bonus items 350,000 / upper limit 4,500,000, and
the three research plans 地方SBIR, CITD, 中央SBIR in that order; the
record with exactly three true flags derives `bonus_count = 3` and the
handler's save path computes the same result. -/
theorem research_scenario_calculation :
    calculate_all scenarioCalculator =
      { grant_min := 2887500, grant_max := 3850000,
        recommended_plans := ["地方SBIR", "CITD", "中央SBIR"],
        grant_employee := 3000000, grant_revenue_bonus := 500000,
        bonus_amount := 350000, upper_limit := 4500000 } ∧
    scenarioRecord.bonus_count = some 3 ∧
    (calculate_and_save_subsidy scenarioRecord ChatSessionStatus.ACTIVE).result =
      some (calculate_all scenarioCalculator) ∧
    (calculate_and_save_subsidy scenarioRecord ChatSessionStatus.ACTIVE).record.grant_min =
      some 2887500 ∧
    (calculate_and_save_subsidy scenarioRecord ChatSessionStatus.ACTIVE).record.grant_max =
      some 3850000 := by
  exact ⟨rfl, rfl, rfl, rfl, rfl⟩

/-- C9 counterexample: a stored budget of 0 is a stored value that
exists, yet updating it to a different value 100 reports NO correction
(`corrected_fields = []`), because the code tests the stored value for
truthiness rather than for presence. -/
theorem corrected_fields_counterexample :
    zeroBudgetRecord.budget = some 0 ∧
    (update_consultation_data zeroBudgetRecord
      { budget := some 100 }).corrected_fields = [] :=
  ⟨rfl, rfl⟩

/-- C9 amended: (1) applying the same field update twice in a row always
yields `corrected_fields = []` on the second call; (2) whenever the
stored value is present AND truthy (nonzero for the numeric fields,
non-empty for the string fields, any present value for the boolean
flags) and the newly supplied non-null (and, for string fields,
non-empty) value differs from it, the field name is recorded in
`corrected_fields`. -/
theorem corrected_fields_amended :
    (∀ (r : SubsidyConsultation) (d : UpdatePayload),
      (update_consultation_data
        (update_consultation_data r d).record d).corrected_fields = []) ∧
    (∀ (r : SubsidyConsultation) (d : UpdatePayload) (f : FieldId),
      storedTruthyDiffers r d f →
      fieldName f ∈ (update_consultation_data r d).corrected_fields) := by
  constructor
  · intro r d
    obtain ⟨e1, e2, e3, e4, e5, e6, e7, e8, e9, e10, e11, e12⟩ :=
      update_record_stored_fields r d
    show updateCorrectedFields (update_consultation_data r d).record d = []
    unfold updateCorrectedFields
    rw [e1, e2, e3, e4, e5, e6, e7, e8, e9, e10, e11, e12]
    simp [strCompCorr_after, natCompCorr_after, boolCompCorr_after]
  · intro r d f hf
    show fieldName f ∈ updateCorrectedFields r d
    cases f with
    | project_type =>
      obtain ⟨s, v, hs, hs0, hv, hv0, hvs⟩ := hf
      have hc : strCompCorr r.project_type d.project_type = true := by
        simp [strCompCorr, hs, hv, hv0, hs0, Ne.symm hvs]
      simp [updateCorrectedFields, fieldName, hc]
    | budget =>
      obtain ⟨s, v, hs, hs0, hv, hvs⟩ := hf
      have hc : natCompCorr r.budget d.budget = true := by
        simp [natCompCorr, hs, hv, hs0, Ne.symm hvs]
      simp [updateCorrectedFields, fieldName, hc]
    | people =>
      obtain ⟨s, v, hs, hs0, hv, hvs⟩ := hf
      have hc : natCompCorr r.people d.people = true := by
        simp [natCompCorr, hs, hv, hs0, Ne.symm hvs]
      simp [updateCorrectedFields, fieldName, hc]
    | capital =>
      obtain ⟨s, v, hs, hs0, hv, hvs⟩ := hf
      have hc : natCompCorr r.capital d.capital = true := by
        simp [natCompCorr, hs, hv, hs0, Ne.symm hvs]
      simp [updateCorrectedFields, fieldName, hc]
    | revenue =>
      obtain ⟨s, v, hs, hs0, hv, hvs⟩ := hf
      have hc : natCompCorr r.revenue d.revenue = true := by
        simp [natCompCorr, hs, hv, hs0, Ne.symm hvs]
      simp [updateCorrectedFields, fieldName, hc]
    | has_certification =>
      obtain ⟨s, v, hs, hv, hvs⟩ := hf
      have hc : boolCompCorr r.has_certification d.has_certification = true := by
        simp [boolCompCorr, hs, hv, Ne.symm hvs]
      simp [updateCorrectedFields, fieldName, hc]
    | has_gov_award =>
      obtain ⟨s, v, hs, hv, hvs⟩ := hf
      have hc : boolCompCorr r.has_gov_award d.has_gov_award = true := by
        simp [boolCompCorr, hs, hv, Ne.symm hvs]
      simp [updateCorrectedFields, fieldName, hc]
    | is_mit =>
      obtain ⟨s, v, hs, hv, hvs⟩ := hf
      have hc : boolCompCorr r.is_mit d.is_mit = true := by
        simp [boolCompCorr, hs, hv, Ne.symm hvs]
      simp [updateCorrectedFields, fieldName, hc]
    | has_industry_academia =>
      obtain ⟨s, v, hs, hv, hvs⟩ := hf
      have hc : boolCompCorr r.has_industry_academia d.has_industry_academia = true := by
        simp [boolCompCorr, hs, hv, Ne.symm hvs]
      simp [updateCorrectedFields, fieldName, hc]
    | has_factory_registration =>
      obtain ⟨s, v, hs, hv, hvs⟩ := hf
      have hc : boolCompCorr r.has_factory_registration d.has_factory_registration = true := by
        simp [boolCompCorr, hs, hv, Ne.symm hvs]
      simp [updateCorrectedFields, fieldName, hc]
    | marketing_type =>
      obtain ⟨s, v, hs, hs0, hv, hv0, hvs⟩ := hf
      have hc : strCompCorr r.marketing_type d.marketing_type = true := by
        simp [strCompCorr, hs, hv, hv0, hs0, Ne.symm hvs]
      simp [updateCorrectedFields, fieldName, hc]
    | growth_revenue =>
      obtain ⟨s, v, hs, hs0, hv, hvs⟩ := hf
      have hc : natCompCorr r.growth_revenue d.growth_revenue = true := by
        simp [natCompCorr, hs, hv, hs0, Ne.symm hvs]
      simp [updateCorrectedFields, fieldName, hc]

/-- Witness for the amended C9: revising the stored people value 20 to
50 satisfies the truthy-stored-differs premise and is reported in
`corrected_fields`. -/
theorem corrected_fields_amended_witness :
    storedTruthyDiffers scenarioRecord revisionPayload FieldId.people ∧
    "people" ∈ (update_consultation_data scenarioRecord
      revisionPayload).corrected_fields :=
  ⟨⟨20, 50, rfl, by decide, rfl, by decide⟩,
   corrected_fields_amended.2 scenarioRecord revisionPayload FieldId.people
     ⟨20, 50, rfl, by decide, rfl, by decide⟩⟩

/-- When one of the five validated fields is missing,
`calculate_and_save_subsidy` returns the failure pair and leaves the
record and the session status untouched. -/
lemma calc_save_incomplete (r : SubsidyConsultation) (st : ChatSessionStatus)
    (h : baseFieldsComplete r = false) :
    calculate_and_save_subsidy r st = ⟨false, none, r, st⟩ := by
  unfold calculate_and_save_subsidy
  unfold baseFieldsComplete at h
  cases hpt : r.project_type with
  | none => rfl
  | some pt =>
    by_cases hpt2 : pt = ""
    · simp [hpt2]
    · cases hb : r.budget with
      | none => simp [hpt2]
      | some b =>
        cases hp : r.people with
        | none => simp [hpt2]
        | some p =>
          cases hc : r.capital with
          | none => simp [hpt2]
          | some c =>
            cases hrv : r.revenue with
            | none => simp [hpt2]
            | some rv =>
              rw [hpt, hb, hp, hc, hrv] at h
              simp [strPresent, hpt2] at h

/-- `calculate_and_save_subsidy` succeeds exactly when the five validated
fields are complete; the 行銷-only fields are never checked. -/
lemma calc_save_success (r : SubsidyConsultation) (st : ChatSessionStatus) :
    (calculate_and_save_subsidy r st).success = baseFieldsComplete r := by
  unfold calculate_and_save_subsidy baseFieldsComplete
  cases hpt : r.project_type with
  | none => rfl
  | some pt =>
    by_cases hpt2 : pt = ""
    · subst hpt2
      simp [strPresent]
    · cases hb : r.budget <;> cases hp : r.people <;>
        cases hc : r.capital <;> cases hrv : r.revenue <;>
        simp [strPresent, hpt2]

/-- C3 counterexample: a 行銷 record with `marketing_type` and
`growth_revenue` still unset is calculated successfully — grant fields
are written and the session completes — contradicting the claim that the
attempt must fail for MARKETING records missing those fields. -/
theorem calculation_gating_counterexample :
    marketingNoTypeRecord.project_type = some "行銷" ∧
    marketingNoTypeRecord.marketing_type = none ∧
    marketingNoTypeRecord.growth_revenue = none ∧
    (calculate_and_save_subsidy marketingNoTypeRecord ChatSessionStatus.ACTIVE).success = true ∧
    (calculate_and_save_subsidy marketingNoTypeRecord ChatSessionStatus.ACTIVE).record.grant_max =
      some 2850000 ∧
    (calculate_and_save_subsidy marketingNoTypeRecord ChatSessionStatus.ACTIVE).status =
      ChatSessionStatus.COMPLETED :=
  ⟨rfl, rfl, rfl, rfl, rfl, rfl⟩

/-- C3 amended: calculation is gated only on `project_type` (truthy) and
`budget`, `people`, `capital`, `revenue` (set); when any of these five is
missing the attempt fails and writes nothing, and the attempt succeeds
exactly when the five are present — `marketing_type` and
`growth_revenue` are never required, defaulting to the empty list and 0. -/
theorem calculation_gating_amended :
    (∀ (r : SubsidyConsultation) (st : ChatSessionStatus),
      baseFieldsComplete r = false →
      calculate_and_save_subsidy r st = ⟨false, none, r, st⟩) ∧
    (∀ (r : SubsidyConsultation) (st : ChatSessionStatus),
      (calculate_and_save_subsidy r st).success = baseFieldsComplete r) :=
  ⟨calc_save_incomplete, calc_save_success⟩

/-- Witness for the amended C3: the fresh record is incomplete and the
save attempt fails with nothing written. -/
theorem calculation_gating_amended_witness :
    baseFieldsComplete initialConsultation = false ∧
    calculate_and_save_subsidy initialConsultation ChatSessionStatus.ACTIVE =
      ⟨false, none, initialConsultation, ChatSessionStatus.ACTIVE⟩ :=
  ⟨rfl, calculation_gating_amended.1 initialConsultation ChatSessionStatus.ACTIVE rfl⟩

/-- C2 counterexample: confirming a completely unfilled record with
confirm(true) sets the `data_confirmed` attribute to true — it does not
remain false as the claim requires. -/
theorem confirm_incomplete_counterexample :
    initialConsultation.project_type = none ∧
    processCall initialProcessState (FunctionCall.confirm true) =
      Except.ok { initialProcessState with
        record := { initialConsultation with data_confirmed := some true } } :=
  ⟨rfl, rfl⟩

/-- C2 amended: confirm(true) on a record missing one of the five
validated fields silently sets `data_confirmed = true`; the chained
calculation then fails, so grant fields stay unwritten, the session
status is unchanged, and the process state is otherwise untouched (in
particular `completed` stays false). -/
theorem confirm_incomplete_amended (s : ProcessState)
    (h : baseFieldsComplete s.record = false) :
    processCall s (FunctionCall.confirm true) =
      Except.ok { s with
        record := { s.record with data_confirmed := some true } } := by
  have h2 := calc_save_incomplete
    { s.record with data_confirmed := some true } s.status h
  simp only [processCall, h2, Bool.false_eq_true, if_false, if_true,
    eq_self_iff_true]

/-- Witness for the amended C2: starting from a fresh process state. -/
theorem confirm_incomplete_amended_witness :
    baseFieldsComplete initialProcessState.record = false ∧
    processCall initialProcessState (FunctionCall.confirm true) =
      Except.ok { initialProcessState with
        record := { initialConsultation with data_confirmed := some true } } :=
  ⟨rfl, confirm_incomplete_amended initialProcessState rfl⟩

/-- C7: handling a calculate_subsidy intent while `data_confirmed` is
present and false changes nothing: the state is returned untouched (no
grant fields written, session status unchanged, `completed` still
false) — the code logs a warning and skips calculation. -/
theorem premature_calculation_noop (s : ProcessState)
    (h : s.record.data_confirmed = some false) :
    processCall s FunctionCall.calculate = Except.ok s := by
  simp [processCall, h]

/-- Witness for C7 at a concrete state carrying
`data_confirmed = False`. -/
theorem premature_calculation_noop_witness :
    unconfirmedState.record.data_confirmed = some false ∧
    processCall unconfirmedState FunctionCall.calculate =
      Except.ok unconfirmedState :=
  ⟨rfl, premature_calculation_noop unconfirmedState rfl⟩

/-- C10: `data_confirmed` is not a column of the `SubsidyConsultation`
model; on a record where the transient attribute was never created,
`get_next_field_question` raises `AttributeError` once all required
fields are collected, and the calculate_subsidy dispatch branch raises
`AttributeError` unconditionally. -/
theorem data_confirmed_transient_attribute :
    ("data_confirmed" ∉ subsidyConsultationColumns) ∧
    (∀ r : SubsidyConsultation, allFieldsCollected r = true →
      r.data_confirmed = none →
      get_next_field_question r = Except.error "AttributeError") ∧
    (∀ s : ProcessState, s.record.data_confirmed = none →
      processCall s FunctionCall.calculate = Except.error "AttributeError") := by
  refine ⟨by decide, ?_, ?_⟩
  · intro r hall hdc
    unfold allFieldsCollected at hall
    simp only [Bool.and_eq_true] at hall
    obtain ⟨⟨⟨⟨⟨⟨⟨⟨⟨⟨hpt, hb⟩, hp⟩, hc⟩, hrv⟩, h6⟩, h7⟩, h8⟩, h9⟩, h10⟩, hmkt⟩ := hall
    obtain ⟨b, hb2⟩ := Option.isSome_iff_exists.mp hb
    obtain ⟨p, hp2⟩ := Option.isSome_iff_exists.mp hp
    obtain ⟨c, hc2⟩ := Option.isSome_iff_exists.mp hc
    obtain ⟨rv, hrv2⟩ := Option.isSome_iff_exists.mp hrv
    obtain ⟨v6, h62⟩ := Option.isSome_iff_exists.mp h6
    obtain ⟨v7, h72⟩ := Option.isSome_iff_exists.mp h7
    obtain ⟨v8, h82⟩ := Option.isSome_iff_exists.mp h8
    obtain ⟨v9, h92⟩ := Option.isSome_iff_exists.mp h9
    obtain ⟨v10, h102⟩ := Option.isSome_iff_exists.mp h10
    by_cases hm : r.project_type = some "行銷"
    · rw [if_pos hm] at hmkt
      simp only [Bool.and_eq_true] at hmkt
      obtain ⟨hmt, hg⟩ := hmkt
      obtain ⟨g, hg2⟩ := Option.isSome_iff_exists.mp hg
      simp [get_next_field_question, hpt, hb2, hp2, hc2, hrv2, h62, h72,
        h82, h92, h102, hm, hmt, hg2, hdc, strPresent]
      exact hmt
    · simp [get_next_field_question, hpt, hb2, hp2, hc2, hrv2, h62, h72,
        h82, h92, h102, hm, hdc]
  · intro s h
    simp [processCall, h]

/-- Witness for C10: the fully-collected research record, where the
attribute was never created. -/
theorem data_confirmed_transient_attribute_witness :
    allFieldsCollected scenarioRecord = true ∧
    scenarioRecord.data_confirmed = none ∧
    get_next_field_question scenarioRecord = Except.error "AttributeError" ∧
    processCall collectedState FunctionCall.calculate =
      Except.error "AttributeError" :=
  ⟨rfl, rfl,
   data_confirmed_transient_attribute.2.1 scenarioRecord rfl rfl,
   data_confirmed_transient_attribute.2.2 collectedState rfl⟩

end Subsidy
